import Mathlib

/-!
Verification of the tarr rule-program compiler/VM core (`src/tarr/compiler.py`)
via a shallow embedding.

Conventions of the embedding:
* Machine state mutated in place by Python is passed explicitly; methods that
  mutate an object return the updated value.
* A Python body that may raise an exception is modelled as an `Option`-valued
  function; `none` models "the body raised".
* `datetime.now()` differences are external inputs; the elapsed duration of a
  body call is passed as an explicit `Int` parameter (microseconds, the
  resolution of `timedelta`).
* The distinguished no-progress sentinel `HAVE_NOT_DONE_IT = object()` is
  compared by object identity in Python (`output is not HAVE_NOT_DONE_IT`);
  it is modelled as a dedicated constructor, distinct from every payload
  value, which captures identity comparison exactly.
* `tarr/compiler_base.py` is not among the available sources; where its
  behaviour is needed (instruction indices, visitor traversal) the definitions
  are modelled from the spec and say so in their doc comments.
-/

/-- Embeds `InstructionStatistic` (compiler.py lines 11-35): per-instruction
counters.  `run_time` is a `timedelta`, modelled as an integer number of
microseconds. -/
structure InstructionStatistic where
  index : Nat
  item_count : Nat
  success_count : Nat
  failure_count : Nat
  run_time : Int
deriving Repr, DecidableEq

namespace InstructionStatistic

/-- Embeds `InstructionStatistic.__init__` (lines 19-24): all counters zero. -/
def init (index : Nat) : InstructionStatistic :=
  { index := index
    item_count := 0
    success_count := 0
    failure_count := 0
    run_time := 0 }

/-- Embeds the `had_exception` property (lines 26-28):
`item_count > success_count + failure_count`. -/
def had_exception (s : InstructionStatistic) : Bool :=
  s.success_count + s.failure_count < s.item_count

/-- Embeds `InstructionStatistic.merge` (lines 30-35) as its effect on the two
objects involved: the receiver (`self`) gets each counter of `from_stat` added
onto its own, and `from_stat` itself is only read, never written.  The
`assert self.index == from_stat.index` is modelled by returning `none` when
the indices differ. -/
def merge_effect (self from_stat : InstructionStatistic) :
    Option (InstructionStatistic × InstructionStatistic) :=
  if self.index = from_stat.index then
    some
      ({ self with
          item_count := self.item_count + from_stat.item_count
          success_count := self.success_count + from_stat.success_count
          failure_count := self.failure_count + from_stat.failure_count
          run_time := self.run_time + from_stat.run_time },
        from_stat)
  else
    none

/-- The receiver's value after `InstructionStatistic.merge` (lines 30-35). -/
def merge (self from_stat : InstructionStatistic) : Option InstructionStatistic :=
  (self.merge_effect from_stat).map Prod.fst

end InstructionStatistic

/-- A data item (spec section 3): the VM only requires a mutable `payload`
field; everything else is passed through unchanged, so only the payload is
modelled. -/
structure Data (α : Type) where
  payload : α
deriving Repr, DecidableEq

/-- Result of a `branch_rule` body (compiler.py lines 339-351): either the
distinguished no-progress sentinel `HAVE_NOT_DONE_IT` (a process-wide unique
object compared by identity) or a new payload. -/
inductive BranchRuleResult (α : Type) where
  | HAVE_NOT_DONE_IT : BranchRuleResult α
  | progress (out : α) : BranchRuleResult α
deriving Repr, DecidableEq

/-- A compiled instruction.  `Modelled from the spec:` the attributes `index`,
`next_on_true`, `next_on_false` and the `kind` tag live in the missing
`tarr/compiler_base.py`; per spec section 3 an instruction's `index` equals its
position in the Program's instruction list, so the index is represented by
position and the successor attributes by `Nat` indices.  The `name` field is
`instruction_name` (`func.__name__`, compiler.py lines 288-290).  Bodies are
`Option`-valued: `none` models a raising body. -/
inductive Instruction (α : Type) where
  | rule (name : String) (func : α → Option α) (next : Nat)
  | branch (name : String) (func : α → Option Bool) (onYes onNo : Nat)
  | branch_rule (name : String) (func : α → Option (BranchRuleResult α))
      (onYes onNo : Nat)
  | ret (return_value : Option Bool)

namespace Instruction

/-- Embeds the `run` methods of `TarrRuleInstruction` (lines 293-297),
`TarrBranchInstruction` (lines 315-321) and `TarrBranchRuleInstruction`
(lines 342-351).  The returned triple is (next instruction index or `none` for
termination, flag, data); the outer `Option` is `none` when the body raised.
The `ret` case is `Modelled from the spec:` section 4.1, `return` terminates
with `return_value` if present else the incoming flag (its class is in the
missing `compiler_base.py`). -/
def run : Instruction α → Bool → Data α → Option (Option Nat × Bool × Data α)
  | rule _ func next, flag, data =>
      (func data.payload).map fun out => (some next, flag, { data with payload := out })
  | branch _ func onYes onNo, _, data =>
      (func data.payload).map fun b =>
        if b then (some onYes, true, data) else (some onNo, false, data)
  | branch_rule _ func onYes onNo, _, data =>
      (func data.payload).map fun out =>
        match out with
        | .HAVE_NOT_DONE_IT => (some onNo, false, data)
        | .progress out => (some onYes, true, { data with payload := out })
  | ret return_value, flag, data =>
      some (none, return_value.getD flag, data)

end Instruction

/-- The statistic updates performed by `Program.run_instruction` (compiler.py
lines 258-275) on `statistics[instruction.index]`: `item_count` is incremented
first; if `instruction.run` raised (`outcome = none`) nothing else changes and
the exception propagates; otherwise `success_count` or `failure_count` is
incremented according to the flag returned by `run`, and the elapsed wall-clock
duration `dt` is added to `run_time`. -/
def run_stat_step (stat : InstructionStatistic) (outcome : Option Bool) (dt : Int) :
    InstructionStatistic :=
  let stat := { stat with item_count := stat.item_count + 1 }
  match outcome with
  | none => stat
  | some flag =>
      let stat :=
        if flag then { stat with success_count := stat.success_count + 1 }
        else { stat with failure_count := stat.failure_count + 1 }
      { stat with run_time := stat.run_time + dt }

/-- Embeds `tarr.compiler.Program` (lines 230-237): the compiled instruction
list plus the parallel statistics vector.  The instruction list itself comes
from the base-class compiler in the missing `compiler_base.py`; it is carried
here as given data. -/
structure Program (α : Type) where
  instructions : List (Instruction α)
  statistics : List InstructionStatistic

namespace Program

/-- Embeds `Program.__init__` (lines 234-237): the statistics vector is
`[InstructionStatistic(i) for i in xrange(len(self.instructions))]`. -/
def init (instructions : List (Instruction α)) : Program α :=
  { instructions := instructions
    statistics := (List.range instructions.length).map InstructionStatistic.init }

/-- Embeds `Program.run_instruction` (lines 258-275).  `i` is
`instruction.index` (the statistics slot used by the Python code); `dt` is the
elapsed duration `after - before`.  Returns the program with its updated
statistics together with `instruction.run`'s result (`none` when the body
raised and the exception propagates to the caller).  An out-of-range `i`
(impossible for statistics parallel to the instructions) leaves the program
unchanged and propagates failure, mirroring the `IndexError` the lookup
`self.statistics[instruction.index]` would raise before any mutation. -/
def run_instruction (p : Program α) (instr : Instruction α) (i : Nat)
    (flag : Bool) (data : Data α) (dt : Int) :
    Program α × Option (Option Nat × Bool × Data α) :=
  match p.statistics[i]? with
  | none => (p, none)
  | some stat =>
      let r := instr.run flag data
      let stat := run_stat_step stat (r.map fun x => x.2.1) dt
      ({ p with statistics := p.statistics.set i stat }, r)

/-- Statistics aggregation as used by the batch runner (spec section 6):
`Program.statistics[i].merge(other)`.  Returns `none` when `i` is out of range
(`IndexError`) or the merge's index assertion fails. -/
def merge_stat (p : Program α) (i : Nat) (from_stat : InstructionStatistic) :
    Option (Program α) :=
  match p.statistics[i]? with
  | none => none
  | some s => (s.merge from_stat).map fun s => { p with statistics := p.statistics.set i s }

end Program

/-- Python's `'{0:4d}'.format(n)`: decimal, right-justified to width 4 with
spaces (wider numbers are printed in full). -/
def pyFormat4d (n : Nat) : String :=
  let s := toString n
  String.mk (List.replicate (4 - s.length) ' ') ++ s

/-- Python's `str` on a boolean: `True` / `False`. -/
def pyBool (b : Bool) : String := if b then "True" else "False"

namespace ToTextVisitor

/-- Embeds `ToTextVisitor.addcomment` (compiler.py lines 49-50): prefixes the
line with five spaces. -/
def addcomment (line : String) : String := "     " ++ line

/-- Embeds `ToTextVisitor.addcode` (lines 52-53):
`'{0:4d} {1}'.format(instruction.index, line)`. -/
def addcode (index : Nat) (line : String) : String :=
  pyFormat4d index ++ " " ++ line

/-- The line text of `ToTextVisitor.visit_return` (lines 76-81): `RETURN`, or
`RETURN True` / `RETURN False` when a return value is present. -/
def return_text (return_value : Option Bool) : String :=
  match return_value with
  | none => "RETURN"
  | some b => "RETURN " ++ pyBool b

/-- The lines contributed by one instruction under `ToTextVisitor` dispatch:
`visit_instruction` (line 83-84) for rules, `visit_branch`/`format_branch`
(lines 55-60, 86-87) for branches (a `branch_rule` is a `TarrBranchInstruction`
subclass, so it dispatches as a branch), `visit_return` (lines 76-81) for
returns.  `i` is the instruction's index. -/
def visit (i : Nat) : Instruction α → List String
  | .rule name _ _ => [addcode i name]
  | .branch name _ onYes onNo =>
      [addcode i name,
        addcomment ("  # True  -> " ++ toString onYes),
        addcomment ("  # False -> " ++ toString onNo)]
  | .branch_rule name _ onYes onNo =>
      [addcode i name,
        addcomment ("  # True  -> " ++ toString onYes),
        addcomment ("  # False -> " ++ toString onNo)]
  | .ret return_value => [addcode i (return_text return_value)]

/-- `Modelled from the spec:` the visitor traversal (`Program.accept`, in the
missing `compiler_base.py`) visits the main program's instructions in order,
bracketed by `enter_subprogram(None, ...)` (which adds nothing for the main
program, lines 65-68) and `leave_subprogram(None)` (which adds
`END OF MAIN PROGRAM`, lines 70-74).  Programs with named sub-programs are
outside this model. -/
def lines (instrs : List (Instruction α)) : List String :=
  (instrs.enum.map fun p => visit p.1 p.2).flatten ++ ["END OF MAIN PROGRAM"]

/-- Embeds `ToTextVisitor.text` (lines 43-44): lines joined by newline. -/
def text (instrs : List (Instruction α)) : String :=
  String.intercalate "\n" (lines instrs)

end ToTextVisitor

/-- The statistics slot `self.statistics[instruction.index]` read by the
with-statistics visitors; an out-of-range read (an `IndexError` in Python,
impossible for statistics parallel to the instructions) is defaulted. -/
def statAt (stats : List InstructionStatistic) (i : Nat) : InstructionStatistic :=
  (stats[i]?).getD (InstructionStatistic.init i)

namespace ToTextVisitorWithStatistics

/-- The lines contributed by one instruction under `ToTextVisitorWithStatistics`
dispatch (compiler.py lines 90-111).  `visit_instruction` is not overridden and
calls `addcode` directly, so rule lines carry no statistics; `format_branch`
(lines 96-106) suffixes the True/False comments with `   (*success_count)` /
`   (*failure_count)`; `visit_return` goes through the overridden
`format_instruction` (lines 108-111), suffixing `   (*item_count)`. -/
def visit (stats : List InstructionStatistic) (i : Nat) : Instruction α → List String
  | .rule name _ _ => [ToTextVisitor.addcode i name]
  | .branch name _ onYes onNo =>
      [ToTextVisitor.addcode i name,
        ToTextVisitor.addcomment ("  # True  -> " ++ toString onYes ++ "   (*" ++
          toString (statAt stats i).success_count ++ ")"),
        ToTextVisitor.addcomment ("  # False -> " ++ toString onNo ++ "   (*" ++
          toString (statAt stats i).failure_count ++ ")")]
  | .branch_rule name _ onYes onNo =>
      [ToTextVisitor.addcode i name,
        ToTextVisitor.addcomment ("  # True  -> " ++ toString onYes ++ "   (*" ++
          toString (statAt stats i).success_count ++ ")"),
        ToTextVisitor.addcomment ("  # False -> " ++ toString onNo ++ "   (*" ++
          toString (statAt stats i).failure_count ++ ")")]
  | .ret return_value =>
      [ToTextVisitor.addcode i (ToTextVisitor.return_text return_value ++ "   (*" ++
        toString (statAt stats i).item_count ++ ")")]

/-- Main-program traversal with statistics; see `ToTextVisitor.lines`. -/
def lines (stats : List InstructionStatistic) (instrs : List (Instruction α)) :
    List String :=
  (instrs.enum.map fun p => visit stats p.1 p.2).flatten ++ ["END OF MAIN PROGRAM"]

/-- The rendered text of `ToTextVisitorWithStatistics`. -/
def text (stats : List InstructionStatistic) (instrs : List (Instruction α)) : String :=
  String.intercalate "\n" (lines stats instrs)

end ToTextVisitorWithStatistics

namespace ToDotVisitor

/-- Embeds `ToDotVisitor.escape` (compiler.py lines 164-165). -/
def escape (label : String) : String := label.replace "\"" "\\\""

/-- Embeds `ToDotVisitor.node_name` (lines 161-162). -/
def node_name (i : Nat) : String := "node_" ++ toString i

/-- Embeds `ToDotVisitor.add_node` (lines 167-169). -/
def add_node (i : Nat) (name : String) : String :=
  "    " ++ node_name i ++ " [label=\"" ++ escape name ++ "\"];"

/-- Embeds `ToDotVisitor.format_edge` (lines 174-188): an empty label (falsy in
Python) yields no attribute list. -/
def format_edge (i j : Nat) (label : String) : String :=
  if label = "" then "    " ++ node_name i ++ " -> " ++ node_name j ++ ";"
  else
    "    " ++ node_name i ++ " -> " ++ node_name j ++
      " [label=\"" ++ escape label ++ "\"];"

/-- The lines contributed by one instruction under `ToDotVisitor` dispatch:
`format_instruction` (lines 200-203) for rules (node plus unlabelled edge to
the true successor), `format_branch` (lines 193-198) for branches (node plus
`True`/`False` labelled edges), `visit_return`/`add_return_node`
(lines 145-150, 171-172) for returns (node only). -/
def visit (i : Nat) : Instruction α → List String
  | .rule name _ next => [add_node i name, format_edge i next ""]
  | .branch name _ onYes onNo =>
      [add_node i name, format_edge i onYes "True", format_edge i onNo "False"]
  | .branch_rule name _ onYes onNo =>
      [add_node i name, format_edge i onYes "True", format_edge i onNo "False"]
  | .ret return_value => [add_node i (ToTextVisitor.return_text return_value)]

/-- `Modelled from the spec:` the traversal of `Program.accept` (missing
`compiler_base.py`) for a program without named sub-programs: the constructor
lines (compiler.py line 117), `enter_subprogram(None, ...)` (lines 135-140,
the main cluster is `cluster_None` since `str(None)` is `None` and no label
line is added), the per-instruction lines, and `leave_subprogram` (lines
142-143). -/
def lines (instrs : List (Instruction α)) : List String :=
  ["digraph \x7b", "", "compound = true;", "", "subgraph \"cluster_None\" \x7b"] ++
    (instrs.enum.map fun p => visit p.1 p.2).flatten ++ ["\x7d"]

/-- Embeds `ToDotVisitor.text` (lines 120-126): with no inter-cluster edges the
extras are just the closing brace. -/
def text (instrs : List (Instruction α)) : String :=
  String.intercalate "\n" (lines instrs ++ ["\x7d"])

end ToDotVisitor

namespace ToDotVisitorWithStatistics

/-- The lines contributed by one instruction under `ToDotVisitorWithStatistics`
dispatch (compiler.py lines 206-227): return nodes become `NAME: item_count`,
branch edges become `True: success_count` / `False: failure_count`; rules are
unchanged. -/
def visit (stats : List InstructionStatistic) (i : Nat) : Instruction α → List String
  | .rule name _ next => [ToDotVisitor.add_node i name, ToDotVisitor.format_edge i next ""]
  | .branch name _ onYes onNo =>
      [ToDotVisitor.add_node i name,
        ToDotVisitor.format_edge i onYes ("True: " ++ toString (statAt stats i).success_count),
        ToDotVisitor.format_edge i onNo ("False: " ++ toString (statAt stats i).failure_count)]
  | .branch_rule name _ onYes onNo =>
      [ToDotVisitor.add_node i name,
        ToDotVisitor.format_edge i onYes ("True: " ++ toString (statAt stats i).success_count),
        ToDotVisitor.format_edge i onNo ("False: " ++ toString (statAt stats i).failure_count)]
  | .ret return_value =>
      [ToDotVisitor.add_node i (ToTextVisitor.return_text return_value ++ ": " ++
        toString (statAt stats i).item_count)]

/-- Main-program traversal with statistics; see `ToDotVisitor.lines`. -/
def lines (stats : List InstructionStatistic) (instrs : List (Instruction α)) :
    List String :=
  ["digraph \x7b", "", "compound = true;", "", "subgraph \"cluster_None\" \x7b"] ++
    (instrs.enum.map fun p => visit stats p.1 p.2).flatten ++ ["\x7d"]

/-- The rendered text of `ToDotVisitorWithStatistics`. -/
def text (stats : List InstructionStatistic) (instrs : List (Instruction α)) : String :=
  String.intercalate "\n" (lines stats instrs ++ ["\x7d"])

end ToDotVisitorWithStatistics

/-- Embeds `Program.to_text` (compiler.py lines 240-246): chooses the visitor
by `with_statistics` and renders. -/
def Program.to_text (p : Program α) (with_statistics : Bool) : String :=
  if with_statistics then ToTextVisitorWithStatistics.text p.statistics p.instructions
  else ToTextVisitor.text p.instructions

/-- Embeds `Program.to_dot` (compiler.py lines 248-254): chooses the visitor
by `with_statistics` and renders. -/
def Program.to_dot (p : Program α) (with_statistics : Bool) : String :=
  if with_statistics then ToDotVisitorWithStatistics.text p.statistics p.instructions
  else ToDotVisitor.text p.instructions

/-- The parallelism invariant of spec section 8 item 2:
`len(P.statistics) == len(P.instructions)` and `P.statistics[i].index == i`. -/
def Program.stats_parallel (p : Program α) : Prop :=
  p.statistics.length = p.instructions.length ∧
    ∀ i, ∀ h : i < p.statistics.length, (p.statistics.get ⟨i, h⟩).index = i

/-- The statistics records producible by the code: freshly constructed
(`InstructionStatistic.__init__`), updated by a `Program.run_instruction` step
(with any body outcome, exception included), or the result of a successful
`merge` of two such records. -/
inductive ReachableStat : InstructionStatistic → Prop where
  | init (i : Nat) : ReachableStat (InstructionStatistic.init i)
  | step (s : InstructionStatistic) (outcome : Option Bool) (dt : Int) :
      ReachableStat s → ReachableStat (run_stat_step s outcome dt)
  | merge (s t u : InstructionStatistic) :
      ReachableStat s → ReachableStat t → s.merge t = some u → ReachableStat u

/-- Every reachable statistics record satisfies the exception-accounting
invariant `success_count + failure_count <= item_count`. -/
theorem ReachableStat.count_le (s : InstructionStatistic) (h : ReachableStat s) :
    s.success_count + s.failure_count ≤ s.item_count := by
  induction h with
  | init i => simp [InstructionStatistic.init]
  | step s outcome dt _ ih =>
      cases outcome with
      | none => simpa [run_stat_step] using Nat.le_succ_of_le ih
      | some flag =>
          cases flag <;> simp [run_stat_step] <;> omega
  | merge s t u _ _ hmerge ihs iht =>
      unfold InstructionStatistic.merge InstructionStatistic.merge_effect at hmerge
      by_cases hidx : s.index = t.index
      · simp only [hidx, if_pos rfl, Option.map_some] at hmerge
        cases hmerge
        calc s.success_count + t.success_count + (s.failure_count + t.failure_count)
            = s.success_count + s.failure_count + (t.success_count + t.failure_count) := by
              ring
          _ ≤ s.item_count + t.item_count := Nat.add_le_add ihs iht
      · simp [hidx] at hmerge

theorem run_stat_step_index (s : InstructionStatistic) (o : Option Bool) (dt : Int) :
    (run_stat_step s o dt).index = s.index := by
  cases o with
  | none => rfl
  | some b => cases b <;> rfl

theorem merge_index (s t u : InstructionStatistic) (h : s.merge t = some u) :
    u.index = s.index := by
  unfold InstructionStatistic.merge InstructionStatistic.merge_effect at h
  by_cases hidx : s.index = t.index
  · simp [hidx] at h
    subst h
    simpa using hidx.symm
  · simp [hidx] at h

/-- C4: `InstructionStatistic.merge` fails exactly on unequal indices, adds
each counter field, and is commutative and associative (componentwise, hence
as whole records) on statistics with equal index. -/
theorem c4_merge_laws (s t u : InstructionStatistic)
    (hst : s.index = t.index) (htu : t.index = u.index) :
    (∀ a b : InstructionStatistic, a.index ≠ b.index → a.merge b = none) ∧
    s.merge t = t.merge s ∧
    (s.merge t).bind (fun x => x.merge u) = (t.merge u).bind (fun y => s.merge y) := by
  refine ⟨fun a b hab => ?_, ?_, ?_⟩
  · simp [InstructionStatistic.merge, InstructionStatistic.merge_effect, hab]
  · simp [InstructionStatistic.merge, InstructionStatistic.merge_effect, hst]
    omega
  · simp [InstructionStatistic.merge, InstructionStatistic.merge_effect, hst, htu]
    omega

/-- Witness for C4 at concrete statistics with equal index 2. -/
theorem c4_merge_laws_witness :
    ((⟨2, 5, 3, 1, 10⟩ : InstructionStatistic).index = (⟨2, 4, 2, 2, 20⟩ : InstructionStatistic).index) ∧
    ((⟨2, 4, 2, 2, 20⟩ : InstructionStatistic).index = (⟨2, 9, 0, 4, 30⟩ : InstructionStatistic).index) ∧
    ((∀ a b : InstructionStatistic, a.index ≠ b.index → a.merge b = none) ∧
      (⟨2, 5, 3, 1, 10⟩ : InstructionStatistic).merge ⟨2, 4, 2, 2, 20⟩ =
        (⟨2, 4, 2, 2, 20⟩ : InstructionStatistic).merge ⟨2, 5, 3, 1, 10⟩ ∧
      ((⟨2, 5, 3, 1, 10⟩ : InstructionStatistic).merge ⟨2, 4, 2, 2, 20⟩).bind
          (fun x => x.merge ⟨2, 9, 0, 4, 30⟩) =
        ((⟨2, 4, 2, 2, 20⟩ : InstructionStatistic).merge ⟨2, 9, 0, 4, 30⟩).bind
          (fun y => (⟨2, 5, 3, 1, 10⟩ : InstructionStatistic).merge y)) :=
  ⟨rfl, rfl, c4_merge_laws ⟨2, 5, 3, 1, 10⟩ ⟨2, 4, 2, 2, 20⟩ ⟨2, 9, 0, 4, 30⟩ rfl rfl⟩

/-- C10: a successful `merge` leaves the argument entirely unchanged and, on
the receiver, changes only the four counter fields (each becoming the sum),
never the index. -/
theorem c10_merge_frame (s t s2 t2 : InstructionStatistic)
    (h : s.merge_effect t = some (s2, t2)) :
    t2 = t ∧ s2.index = s.index ∧
    s2.item_count = s.item_count + t.item_count ∧
    s2.success_count = s.success_count + t.success_count ∧
    s2.failure_count = s.failure_count + t.failure_count ∧
    s2.run_time = s.run_time + t.run_time := by
  unfold InstructionStatistic.merge_effect at h
  by_cases hidx : s.index = t.index
  · rw [if_pos hidx] at h
    cases h
    exact ⟨rfl, rfl, rfl, rfl, rfl, rfl⟩
  · rw [if_neg hidx] at h
    exact absurd h (by simp)

/-- Witness for C10 at concrete statistics with equal index 5. -/
theorem c10_merge_frame_witness :
    ((⟨5, 10, 4, 3, 100⟩ : InstructionStatistic).merge_effect ⟨5, 7, 2, 1, 50⟩ =
      some (⟨5, 17, 6, 4, 150⟩, ⟨5, 7, 2, 1, 50⟩)) ∧
    ((⟨5, 7, 2, 1, 50⟩ : InstructionStatistic) = ⟨5, 7, 2, 1, 50⟩ ∧
      (⟨5, 17, 6, 4, 150⟩ : InstructionStatistic).index = (⟨5, 10, 4, 3, 100⟩ : InstructionStatistic).index ∧
      (⟨5, 17, 6, 4, 150⟩ : InstructionStatistic).item_count = 10 + 7 ∧
      (⟨5, 17, 6, 4, 150⟩ : InstructionStatistic).success_count = 4 + 2 ∧
      (⟨5, 17, 6, 4, 150⟩ : InstructionStatistic).failure_count = 3 + 1 ∧
      (⟨5, 17, 6, 4, 150⟩ : InstructionStatistic).run_time = 100 + 50) :=
  ⟨by decide, c10_merge_frame ⟨5, 10, 4, 3, 100⟩ ⟨5, 7, 2, 1, 50⟩ ⟨5, 17, 6, 4, 150⟩
    ⟨5, 7, 2, 1, 50⟩ (by decide)⟩

/-- C2: when the instruction's body raises during `Program.run_instruction`,
exactly `item_count` is incremented (by 1) while `success_count`,
`failure_count` and `run_time` stay unchanged, the exception propagates to the
caller, `had_exception` holds afterwards, and every reachable statistics record
satisfies `item_count >= success_count + failure_count`. -/
theorem c2_exception_accounting {α : Type} (p : Program α) (instr : Instruction α)
    (i : Nat) (flag : Bool) (data : Data α) (dt : Int) (stat : InstructionStatistic)
    (hstat : p.statistics[i]? = some stat)
    (hrun : instr.run flag data = none)
    (hreach : ReachableStat stat) :
    (p.run_instruction instr i flag data dt).2 = none ∧
    (∃ s2, (p.run_instruction instr i flag data dt).1.statistics[i]? = some s2 ∧
      s2.item_count = stat.item_count + 1 ∧
      s2.success_count = stat.success_count ∧
      s2.failure_count = stat.failure_count ∧
      s2.run_time = stat.run_time ∧
      s2.index = stat.index ∧
      s2.had_exception = true) ∧
    ∀ t : InstructionStatistic, ReachableStat t →
      t.success_count + t.failure_count ≤ t.item_count := by
  have hlt : i < p.statistics.length := by
    rcases List.getElem?_eq_some.mp hstat with ⟨h, _⟩
    exact h
  refine ⟨?_, ?_, fun t ht => ReachableStat.count_le t ht⟩
  · simp [Program.run_instruction, hstat, hrun]
  · refine ⟨{ stat with item_count := stat.item_count + 1 }, ?_, rfl, rfl, rfl, rfl, rfl, ?_⟩
    · simp [Program.run_instruction, hstat, hrun, run_stat_step]
      exact List.getElem?_set_eq_of_lt _ hlt
    · simp only [InstructionStatistic.had_exception, decide_eq_true_eq, Nat.lt_succ_iff]
      exact ReachableStat.count_le stat hreach

/-- Witness for C2: a one-rule program whose body always raises, run at slot 0
with a freshly constructed statistic. -/
theorem c2_exception_accounting_witness :
    ((Program.init [Instruction.rule "boom" (fun _ : Nat => none) 1,
        Instruction.ret none]).statistics[0]? = some (InstructionStatistic.init 0)) ∧
    ((Instruction.rule "boom" (fun _ : Nat => none) 1).run true ⟨7⟩ = none) ∧
    ReachableStat (InstructionStatistic.init 0) ∧
    (((Program.init [Instruction.rule "boom" (fun _ : Nat => none) 1,
          Instruction.ret none]).run_instruction
          (Instruction.rule "boom" (fun _ : Nat => none) 1) 0 true ⟨7⟩ 5).2 = none ∧
      (∃ s2, ((Program.init [Instruction.rule "boom" (fun _ : Nat => none) 1,
            Instruction.ret none]).run_instruction
            (Instruction.rule "boom" (fun _ : Nat => none) 1) 0 true ⟨7⟩ 5).1.statistics[0]? =
              some s2 ∧
        s2.item_count = (InstructionStatistic.init 0).item_count + 1 ∧
        s2.success_count = (InstructionStatistic.init 0).success_count ∧
        s2.failure_count = (InstructionStatistic.init 0).failure_count ∧
        s2.run_time = (InstructionStatistic.init 0).run_time ∧
        s2.index = (InstructionStatistic.init 0).index ∧
        s2.had_exception = true) ∧
      ∀ t : InstructionStatistic, ReachableStat t →
        t.success_count + t.failure_count ≤ t.item_count) :=
  ⟨rfl, rfl, ReachableStat.init 0,
    c2_exception_accounting _ _ 0 true ⟨7⟩ 5 (InstructionStatistic.init 0) rfl rfl
      (ReachableStat.init 0)⟩

/-- C1 counterexample: a rule instruction whose body completes normally
(doubling the payload), executed by `Program.run_instruction` with the carried
flag `False`: the body returns a payload transformation (the run result is
`some`), yet the instruction's `failure_count` is incremented and its
`success_count` stays 0 — the accounting is **not** independent of the flag
carried into the instruction. -/
theorem c1_counterexample :
    (((Program.init [Instruction.rule "double" (fun x : Nat => some (x + x)) 1,
          Instruction.ret none]).run_instruction
          (Instruction.rule "double" (fun x : Nat => some (x + x)) 1)
          0 false ⟨7⟩ 0).2 = some (some 1, false, ⟨14⟩)) ∧
    (((Program.init [Instruction.rule "double" (fun x : Nat => some (x + x)) 1,
          Instruction.ret none]).run_instruction
          (Instruction.rule "double" (fun x : Nat => some (x + x)) 1)
          0 false ⟨7⟩ 0).1.statistics[0]?.map
        (fun s => (s.item_count, s.success_count, s.failure_count)) = some (1, 0, 1)) := by
  constructor <;> rfl

/-- C1 amended: for a rule instruction whose body completes normally,
`Program.run_instruction` increments `success_count` when the carried flag is
`True` and `failure_count` when it is `False` (the VM's accounting follows the
flag returned by the instruction, and a rule returns the incoming flag
unchanged); `item_count` gains 1, `run_time` gains the elapsed duration, the
index is untouched, and the rule's body result becomes the new payload. -/
theorem c1_amended {α : Type} (p : Program α) (name : String) (func : α → Option α)
    (next i : Nat) (flag : Bool) (data : Data α) (dt : Int)
    (stat : InstructionStatistic) (out : α)
    (hstat : p.statistics[i]? = some stat)
    (hbody : func data.payload = some out) :
    (p.run_instruction (Instruction.rule name func next) i flag data dt).2 =
      some (some next, flag, { data with payload := out }) ∧
    ∃ s2, (p.run_instruction (Instruction.rule name func next) i flag data dt).1.statistics[i]? =
        some s2 ∧
      s2.success_count = (if flag then stat.success_count + 1 else stat.success_count) ∧
      s2.failure_count = (if flag then stat.failure_count else stat.failure_count + 1) ∧
      s2.item_count = stat.item_count + 1 ∧
      s2.run_time = stat.run_time + dt ∧
      s2.index = stat.index := by
  have hlt : i < p.statistics.length := by
    rcases List.getElem?_eq_some.mp hstat with ⟨h, _⟩
    exact h
  constructor
  · simp [Program.run_instruction, hstat, Instruction.run, hbody]
  · refine ⟨run_stat_step stat (some flag) dt, ?_, ?_, ?_, ?_, ?_, ?_⟩
    · simp only [Program.run_instruction, hstat, Instruction.run, hbody, Option.map_some]
      exact List.getElem?_set_eq_of_lt _ hlt
    all_goals cases flag <;> rfl

/-- Witness for C1 amended: the counterexample's program run with flag `True`
succeeds and increments `success_count`. -/
theorem c1_amended_witness :
    ((Program.init [Instruction.rule "double" (fun x : Nat => some (x + x)) 1,
        Instruction.ret none]).statistics[0]? = some (InstructionStatistic.init 0)) ∧
    ((fun x : Nat => some (x + x)) (7 : Nat) = some 14) ∧
    (((Program.init [Instruction.rule "double" (fun x : Nat => some (x + x)) 1,
          Instruction.ret none]).run_instruction
          (Instruction.rule "double" (fun x : Nat => some (x + x)) 1) 0 true ⟨7⟩ 3).2 =
        some (some 1, true, ⟨14⟩) ∧
      ∃ s2, ((Program.init [Instruction.rule "double" (fun x : Nat => some (x + x)) 1,
            Instruction.ret none]).run_instruction
            (Instruction.rule "double" (fun x : Nat => some (x + x)) 1)
            0 true ⟨7⟩ 3).1.statistics[0]? = some s2 ∧
        s2.success_count = (if true then (InstructionStatistic.init 0).success_count + 1
          else (InstructionStatistic.init 0).success_count) ∧
        s2.failure_count = (if true then (InstructionStatistic.init 0).failure_count
          else (InstructionStatistic.init 0).failure_count + 1) ∧
        s2.item_count = (InstructionStatistic.init 0).item_count + 1 ∧
        s2.run_time = (InstructionStatistic.init 0).run_time + 3 ∧
        s2.index = (InstructionStatistic.init 0).index) :=
  ⟨rfl, rfl,
    c1_amended _ "double" (fun x : Nat => some (x + x)) 1 0 true ⟨7⟩ 3
      (InstructionStatistic.init 0) 14 rfl rfl⟩

/-- C3: a `branch_rule` instruction's `run`: when the body returns the
distinguished no-progress sentinel (a dedicated constructor, so the comparison
is the embedding of Python's identity test `output is not HAVE_NOT_DONE_IT`),
the false edge is taken with flag `False` and the returned data is the very
input data, payload untouched; when the body returns a payload, it is assigned
to the payload and the true edge is taken with flag `True`. -/
theorem c3_branch_rule {α : Type} (name : String)
    (func : α → Option (BranchRuleResult α)) (onYes onNo : Nat) (flag : Bool)
    (data : Data α) (result : BranchRuleResult α)
    (h : func data.payload = some result) :
    (Instruction.branch_rule name func onYes onNo).run flag data =
      (match result with
        | .HAVE_NOT_DONE_IT => some (some onNo, false, data)
        | .progress out => some (some onYes, true, { data with payload := out })) := by
  cases result <;> simp [Instruction.run, h]

/-- Witness for C3: a concrete `branch_rule` body taking the sentinel path on
payload 0 and the progress path on payload 5. -/
theorem c3_branch_rule_witness :
    ((fun x : Nat => some (if x = 0 then BranchRuleResult.HAVE_NOT_DONE_IT
        else BranchRuleResult.progress (x + 1))) (0 : Nat) =
      some BranchRuleResult.HAVE_NOT_DONE_IT) ∧
    ((Instruction.branch_rule "step"
        (fun x : Nat => some (if x = 0 then BranchRuleResult.HAVE_NOT_DONE_IT
          else BranchRuleResult.progress (x + 1))) 1 2).run true ⟨0⟩ =
      some (some 2, false, ⟨0⟩)) :=
  ⟨rfl,
    c3_branch_rule "step"
      (fun x : Nat => some (if x = 0 then BranchRuleResult.HAVE_NOT_DONE_IT
        else BranchRuleResult.progress (x + 1))) 1 2 true ⟨0⟩
      BranchRuleResult.HAVE_NOT_DONE_IT rfl⟩

/-- C9: `run` of a `branch` and of a `branch_rule` instruction is completely
independent of the incoming flag (same next instruction, same outgoing flag,
same payload update for any two flags), and a rule's outgoing flag is exactly
its incoming flag. -/
theorem c9_flag_independence {α : Type} (name : String) (fb : α → Option Bool)
    (fbr : α → Option (BranchRuleResult α)) (fr : α → Option α)
    (onYes onNo next : Nat) (f g : Bool) (d : Data α)
    (next2 : Option Nat) (f2 : Bool) (d2 : Data α)
    (hrule : (Instruction.rule name fr next).run f d = some (next2, f2, d2)) :
    (Instruction.branch name fb onYes onNo).run f d =
      (Instruction.branch name fb onYes onNo).run g d ∧
    (Instruction.branch_rule name fbr onYes onNo).run f d =
      (Instruction.branch_rule name fbr onYes onNo).run g d ∧
    f2 = f := by
  refine ⟨rfl, rfl, ?_⟩
  cases hfr : fr d.payload with
  | none => simp [Instruction.run, hfr] at hrule
  | some out =>
      simp [Instruction.run, hfr] at hrule
      exact hrule.2.1.symm

/-- Witness for C9 at a concrete rule, branch and branch_rule. -/
theorem c9_flag_independence_witness :
    ((Instruction.rule "inc" (fun x : Nat => some (x + 1)) 3).run false ⟨4⟩ =
      some (some 3, false, ⟨5⟩)) ∧
    ((Instruction.branch "pos" (fun x : Nat => some (0 < x)) 1 2).run false ⟨4⟩ =
        (Instruction.branch "pos" (fun x : Nat => some (0 < x)) 1 2).run true ⟨4⟩ ∧
      (Instruction.branch_rule "step" (fun x : Nat => some (BranchRuleResult.progress x)) 1 2).run
          false ⟨4⟩ =
        (Instruction.branch_rule "step" (fun x : Nat => some (BranchRuleResult.progress x)) 1 2).run
          true ⟨4⟩ ∧
      false = false) :=
  ⟨rfl,
    c9_flag_independence "pos" (fun x : Nat => some (0 < x))
      (fun x : Nat => some (BranchRuleResult.progress x)) (fun x : Nat => some (x + 1))
      1 2 3 false true ⟨4⟩ (some 3) false ⟨5⟩ rfl⟩

/-- C5: the statistics vector is parallel to the instruction vector
(`len(P.statistics) == len(P.instructions)` and `P.statistics[i].index == i`):
established by `Program.__init__`, and preserved by `Program.run_instruction`
and by merging a statistic into a slot — these mutate only counter fields,
never an index or the vector length. -/
theorem c5_stats_parallel {α : Type} (instrs : List (Instruction α)) (p : Program α)
    (instr : Instruction α) (i : Nat) (flag : Bool) (data : Data α) (dt : Int)
    (j : Nat) (t : InstructionStatistic) :
    (Program.init instrs).stats_parallel ∧
    (p.stats_parallel → ((p.run_instruction instr i flag data dt).1).stats_parallel) ∧
    (∀ q, p.stats_parallel → p.merge_stat j t = some q → q.stats_parallel) := by
  refine ⟨⟨by simp [Program.init], fun k hk => ?_⟩, fun hp => ?_, fun q hp hq => ?_⟩
  · simp only [Program.init, List.get_eq_getElem, List.getElem_map, List.getElem_range]
    rfl
  · unfold Program.run_instruction
    cases hstat : p.statistics[i]? with
    | none => simpa using hp
    | some stat =>
        obtain ⟨hlen, hidx⟩ := hp
        refine ⟨by simpa using hlen, fun k hk => ?_⟩
        simp only [List.get_eq_getElem]
        have hk2 : k < p.statistics.length := by simpa using hk
        rcases eq_or_ne i k with rfl | hne
        · rw [List.getElem_set_self]
          rw [run_stat_step_index]
          have : p.statistics[i] = stat := by
            rcases List.getElem?_eq_some.mp hstat with ⟨h, he⟩
            exact he
          rw [← this]
          simpa using hidx i hk2
        · rw [List.getElem_set_ne hne]
          simpa using hidx k hk2
  · unfold Program.merge_stat at hq
    cases hstat : p.statistics[j]? with
    | none => rw [hstat] at hq; exact absurd hq (by simp)
    | some s =>
        simp only [hstat] at hq
        cases hmerge : s.merge t with
        | none => rw [hmerge] at hq; exact absurd hq (by simp)
        | some s2 =>
            rw [hmerge] at hq
            rcases hq2 : q with ⟨qi, qs⟩
            rw [hq2] at hq
            have hq3 : qs = p.statistics.set j s2 ∧ qi = p.instructions := by
              cases hq
              exact ⟨rfl, rfl⟩
            obtain ⟨rfl, rfl⟩ := hq3
            obtain ⟨hlen, hidx⟩ := hp
            refine ⟨by simpa using hlen, fun k hk => ?_⟩
            simp only [List.get_eq_getElem]
            have hk2 : k < p.statistics.length := by simpa using hk
            rcases eq_or_ne j k with rfl | hne
            · rw [List.getElem_set_self]
              rw [merge_index s t s2 hmerge]
              have : p.statistics[j] = s := by
                rcases List.getElem?_eq_some.mp hstat with ⟨h, he⟩
                exact he
              rw [← this]
              simpa using hidx j hk2
            · rw [List.getElem_set_ne hne]
              simpa using hidx k hk2

/-- Witness for C5 at a concrete two-instruction program, running slot 0 and
merging into slot 1. -/
theorem c5_stats_parallel_witness :
    (Program.init [Instruction.rule "inc" (fun x : Nat => some (x + 1)) 1,
        Instruction.ret none]).stats_parallel ∧
    ((Program.init [Instruction.rule "inc" (fun x : Nat => some (x + 1)) 1,
          Instruction.ret none]).stats_parallel →
      (((Program.init [Instruction.rule "inc" (fun x : Nat => some (x + 1)) 1,
          Instruction.ret none]).run_instruction
          (Instruction.rule "inc" (fun x : Nat => some (x + 1)) 1)
          0 true ⟨0⟩ 2).1).stats_parallel) ∧
    (∀ q, (Program.init [Instruction.rule "inc" (fun x : Nat => some (x + 1)) 1,
          Instruction.ret none]).stats_parallel →
      (Program.init [Instruction.rule "inc" (fun x : Nat => some (x + 1)) 1,
          Instruction.ret none]).merge_stat 1 ⟨1, 4, 2, 2, 8⟩ = some q →
      q.stats_parallel) :=
  c5_stats_parallel [Instruction.rule "inc" (fun x : Nat => some (x + 1)) 1,
    Instruction.ret none]
    (Program.init [Instruction.rule "inc" (fun x : Nat => some (x + 1)) 1,
      Instruction.ret none])
    (Instruction.rule "inc" (fun x : Nat => some (x + 1)) 1) 0 true ⟨0⟩ 2 1 ⟨1, 4, 2, 2, 8⟩

/-- C6 counterexample: in the plain text listing, a branch's comment lines have
**seven** spaces before the `#` (five from `addcomment` plus the two leading
spaces of the format string `'  # True  -> {0}'`), not five: for a concrete
branch with successors 1 and 2, the listing contains `       # True  -> 1` and
not the claimed `     # True  -> 1`. -/
theorem c6_counterexample :
    ToTextVisitor.lines [Instruction.branch "pos" (fun x : Nat => some (0 < x)) 1 2,
        Instruction.ret none, Instruction.ret none] =
      ["   0 pos", "       # True  -> 1", "       # False -> 2",
        "   1 RETURN", "   2 RETURN", "END OF MAIN PROGRAM"] ∧
    "     # True  -> 1" ∉
      ToTextVisitor.lines [Instruction.branch "pos" (fun x : Nat => some (0 < x)) 1 2,
        Instruction.ret none, Instruction.ret none] ∧
    "     # False -> 2" ∉
      ToTextVisitor.lines [Instruction.branch "pos" (fun x : Nat => some (0 < x)) 1 2,
        Instruction.ret none, Instruction.ret none] := by
  refine ⟨rfl, ?_, ?_⟩ <;> decide

/-- C6 amended: in the text listing produced without statistics, every branch
instruction (a `branch_rule` dispatches as a branch too) contributes, after its
own code line, exactly two comment lines of the exact form
`       # True  -> T` and `       # False -> F` — **seven** spaces before the
`#` — where T and F are the indices of its true and false successors. -/
theorem c6_amended {α : Type} (name : String) (fb : α → Option Bool)
    (fbr : α → Option (BranchRuleResult α)) (onYes onNo i : Nat) :
    ToTextVisitor.visit i (Instruction.branch name fb onYes onNo) =
      [ToTextVisitor.addcode i name,
        "       # True  -> " ++ toString onYes,
        "       # False -> " ++ toString onNo] ∧
    ToTextVisitor.visit i (Instruction.branch_rule name fbr onYes onNo) =
      [ToTextVisitor.addcode i name,
        "       # True  -> " ++ toString onYes,
        "       # False -> " ++ toString onNo] := by
  exact ⟨rfl, rfl⟩

/-- C7: the two-instruction program `[rule "double", RETURN]` renders without
statistics to exactly `   0 double\n   1 RETURN\nEND OF MAIN PROGRAM` (indices
right-justified in 4 columns, lines joined by newline, no trailing newline),
whatever the rule's body is. -/
theorem c7_text_listing (f : Nat → Option Nat) :
    (Program.init [Instruction.rule "double" f 1, Instruction.ret none]).to_text false =
      "   0 double\n   1 RETURN\nEND OF MAIN PROGRAM" := by
  show ToTextVisitor.text [Instruction.rule "double" f 1, Instruction.ret none] = _
  simp only [ToTextVisitor.text, ToTextVisitor.lines, List.enum, List.enumFrom,
    ToTextVisitor.visit, List.map, List.flatten]
  rfl

/-- C8: `to_text(False)` and `to_dot(False)` depend only on the instruction
shape: two programs with identical instructions but arbitrary statistics render
identically. -/
theorem c8_visitor_determinism {α : Type} (p q : Program α)
    (h : p.instructions = q.instructions) :
    p.to_text false = q.to_text false ∧ p.to_dot false = q.to_dot false := by
  simp [Program.to_text, Program.to_dot, h]

/-- Witness for C8: a freshly built program versus the same instructions with a
run-and-merge-scarred statistics vector. -/
theorem c8_visitor_determinism_witness :
    ((Program.init [Instruction.branch "pos" (fun x : Nat => some (0 < x)) 1 1,
        Instruction.ret none]).instructions =
      (Program.mk [Instruction.branch "pos" (fun x : Nat => some (0 < x)) 1 1,
        Instruction.ret none] [⟨0, 9, 5, 4, 77⟩, ⟨1, 3, 0, 0, 5⟩]).instructions) ∧
    ((Program.init [Instruction.branch "pos" (fun x : Nat => some (0 < x)) 1 1,
          Instruction.ret none]).to_text false =
        (Program.mk [Instruction.branch "pos" (fun x : Nat => some (0 < x)) 1 1,
          Instruction.ret none] [⟨0, 9, 5, 4, 77⟩, ⟨1, 3, 0, 0, 5⟩]).to_text false ∧
      (Program.init [Instruction.branch "pos" (fun x : Nat => some (0 < x)) 1 1,
          Instruction.ret none]).to_dot false =
        (Program.mk [Instruction.branch "pos" (fun x : Nat => some (0 < x)) 1 1,
          Instruction.ret none] [⟨0, 9, 5, 4, 77⟩, ⟨1, 3, 0, 0, 5⟩]).to_dot false) :=
  ⟨rfl,
    c8_visitor_determinism
      (Program.init [Instruction.branch "pos" (fun x : Nat => some (0 < x)) 1 1,
        Instruction.ret none])
      (Program.mk [Instruction.branch "pos" (fun x : Nat => some (0 < x)) 1 1,
        Instruction.ret none] [⟨0, 9, 5, 4, 77⟩, ⟨1, 3, 0, 0, 5⟩]) rfl⟩
